import Mathlib

/-!
# Force-replication migration workflow: a shallow embedding

This file embeds the force-replication migration orchestrator of the
`migration` package (the workflow exercised by `force_replication_workflow_test.go`,
given here as `src/unnamed/part_000`) and settles the frozen claims about it.

The repository snapshot contains only the test file of this package; the
workflow and activity implementations (`ForceReplicationWorkflow`,
`SeedReplicationQueueWithUserDataEntries`, …) are not part of the snapshot.
Every definition marked `Modelled from the spec:` is therefore reconstructed
from the natural-language specification, with the behaviour pinned down by the
tests wherever the tests observe it (mock call counts, expected
continue-as-new records, queried status fields, recorded heartbeats).

Conventions of the embedding:
* Go `[]byte` page tokens become `Option String`; `none` stands for a
  nil/empty token (the tests only distinguish empty from non-empty).
* Go `time.Time` timestamps become `Nat`, with `0` as the zero value.
* Activity collaborators become explicit environments of pure functions;
  retries and the generate/verify race become explicit parameters
  (per-attempt result functions, a completion-order schedule).
* Unbounded loops take explicit fuel.
-/

namespace Migration

/-- A pagination token; `none` models a Go nil/empty `[]byte` token. -/
abbrev PageToken := Option String

/-- Outcome classification of a failed activity attempt: Temporal retries
retryable errors under the retry policy and surfaces non-retryable errors
immediately. -/
inductive ActivityErr where
  | retryable (msg : String)
  | nonRetryable (msg : String)
deriving Repr, DecidableEq

/-- The message carried by an activity error. -/
def ActivityErr.message : ActivityErr → String
  | .retryable m => m
  | .nonRetryable m => m

/-! ## The user-data seeding sub-migration (`SeedReplicationQueueWithUserDataEntries`) -/

/-- One task-queue user-data entry, identified by its task-queue name
(mirrors `persistence.TaskQueueUserDataEntry`, keeping the field the tests
observe). -/
structure TaskQueueUserDataEntry where
  TaskQueue : String
deriving Repr, DecidableEq

/-- One page of task-queue user-data entries
(mirrors `persistence.ListTaskQueueUserDataEntriesResponse`). -/
structure ListTaskQueueUserDataEntriesResponse where
  NextPageToken : PageToken
  Entries : List TaskQueueUserDataEntry
deriving Repr, DecidableEq

/-- The seed activity's heartbeat record
(`seedReplicationQueueWithUserDataEntriesHeartbeatDetails`): the token used to
fetch the page currently being published, and the index within that page of
the publish the heartbeat reports. -/
structure SeedHeartbeat where
  NextPageToken : PageToken
  IndexInPage : Nat
deriving Repr, DecidableEq

/-- Collaborators of the seed activity.  `publish` is indexed by the 1-based
global publish-call number so an environment can make a specific call fail,
exactly as the test's mock does. -/
structure SeedEnv where
  describeNamespaceResult : Except String String
  listEntries : PageToken → Except String ListTaskQueueUserDataEntriesResponse
  publish : Nat → String → Except String Unit

/-- Observable trace of the seed activity, accumulated across attempts:
describe-namespace calls, the page tokens requested from
`ListTaskQueueUserDataEntries` in order, the task-queue names handed to
`Publish` in order, and the recorded heartbeats. -/
structure SeedSt where
  describeCalls : Nat
  listTokens : List PageToken
  published : List String
  heartbeats : List SeedHeartbeat
  pubCalls : Nat
deriving Repr, DecidableEq

/-- The empty seed trace. -/
def SeedSt.empty : SeedSt :=
  { describeCalls := 0, listTokens := [], published := [], heartbeats := [], pubCalls := 0 }

/-- Modelled from the spec: the per-entry publish loop of the missing
`SeedReplicationQueueWithUserDataEntries` activity body.  For each remaining
entry of the page fetched with token `tok`, starting at index `i`, publish it
and emit a heartbeat `{tok, i}`; a publish error surfaces as the attempt's
failure (after the heartbeat for the failed call is recorded, which is what
the test's interceptor observes). -/
def publishLoop (env : SeedEnv) (tok : PageToken) :
    List TaskQueueUserDataEntry → Nat → SeedSt → SeedSt × Option String
  | [], _, st => (st, none)
  | e :: rest, i, st =>
    let res := env.publish (st.pubCalls + 1) e.TaskQueue
    let st1 : SeedSt :=
      { st with
        pubCalls := st.pubCalls + 1
        published := st.published ++ [e.TaskQueue]
        heartbeats := st.heartbeats ++ [⟨tok, i⟩] }
    match res with
    | Except.error msg => (st1, some msg)
    | Except.ok _ => publishLoop env tok rest (i + 1) st1

/-- Modelled from the spec: the paginated scan of the missing
`SeedReplicationQueueWithUserDataEntries` activity body.  Fetch the page at
`tok`, publish its entries from `startIdx` on, and complete exactly when a
fetched page has an empty/nil next-page token and an empty entry list;
otherwise continue with the returned token from index 0.  `fuel` bounds the
number of page fetches. -/
def seedScan (env : SeedEnv) : Nat → PageToken → Nat → SeedSt → SeedSt × Option String
  | 0, _, _, st => (st, some "seed scan fuel exhausted")
  | Nat.succ fuel, tok, startIdx, st =>
    let st0 : SeedSt := { st with listTokens := st.listTokens ++ [tok] }
    match env.listEntries tok with
    | Except.error msg => (st0, some msg)
    | Except.ok resp =>
      match publishLoop env tok (resp.Entries.drop startIdx) startIdx st0 with
      | (st1, some msg) => (st1, some msg)
      | (st1, none) =>
        if resp.NextPageToken = none ∧ resp.Entries = [] then (st1, none)
        else seedScan env fuel resp.NextPageToken 0 st1

/-- Modelled from the spec: one attempt of the missing
`SeedReplicationQueueWithUserDataEntries` activity.  Resolve the namespace,
then scan from the last heartbeat's cursor (the boundary entry at the recorded
index is republished, giving the documented at-least-once behaviour), or from
the beginning when no heartbeat is present. -/
def seedReplicationQueueWithUserDataEntries (env : SeedEnv) (hb : Option SeedHeartbeat)
    (fuel : Nat) (st : SeedSt) : SeedSt × Option String :=
  let st0 : SeedSt := { st with describeCalls := st.describeCalls + 1 }
  match env.describeNamespaceResult with
  | Except.error msg => (st0, some msg)
  | Except.ok _ =>
    match hb with
    | none => seedScan env fuel none 0 st0
    | some h => seedScan env fuel h.NextPageToken h.IndexInPage st0

/-- The seed-activity environment of
`TestSeedReplicationQueueWithUserDataEntries_Heartbeats`: the first page
(fetched with a nil token) holds entries `a` and `b` and points at a second
page, which is empty with an empty token; the second publish call overall
fails with `some random error`. -/
def seedTestEnv : SeedEnv :=
  { describeNamespaceResult := Except.ok "namespace-id"
    listEntries := fun tok =>
      match tok with
      | none =>
        Except.ok { NextPageToken := some "acdc", Entries := [⟨"a"⟩, ⟨"b"⟩] }
      | some _ =>
        Except.ok { NextPageToken := none, Entries := [] }
    publish := fun n _ => if n = 2 then Except.error "some random error" else Except.ok () }

/-- First attempt of the seed activity on `seedTestEnv` (no heartbeat). -/
def seedAttempt1 : SeedSt × Option String :=
  seedReplicationQueueWithUserDataEntries seedTestEnv none 5 SeedSt.empty

/-- Retried attempt, seeded with the heartbeat `{nil token, index 1}` recorded
by the failed first attempt, continuing the same trace. -/
def seedAttempt2 : SeedSt × Option String :=
  seedReplicationQueueWithUserDataEntries seedTestEnv (some ⟨none, 1⟩) 5 seedAttempt1.1

/-! ## The main force-replication workflow: data model -/

/-- Parameters of the user-data sub-migration
(`TaskQueueUserDataReplicationParams`). -/
structure TaskQueueUserDataReplicationParams where
  PageSize : Nat
  RPS : Nat
deriving Repr, DecidableEq

/-- Queryable terminal state of the user-data sub-migration
(`TaskQueueUserDataReplicationStatus`). -/
structure TaskQueueUserDataReplicationStatus where
  Done : Bool
  FailureMessage : String
deriving Repr, DecidableEq

/-- The durable input/continuation record of the migration
(`ForceReplicationParams`).  `EstimationMultiplier` and `QPSQueue` stand for
the execution-local adaptive rate-estimation state, which the continuation
test explicitly excludes from comparison. -/
structure ForceReplicationParams where
  Namespace : String
  Query : String
  ConcurrentActivityCount : Nat
  OverallRps : Nat
  GetParentInfoRPS : Nat
  ListWorkflowsPageSize : Nat
  PageCountPerExecution : Nat
  NextPageToken : PageToken
  EnableVerification : Bool
  TargetClusterEndpoint : String
  TargetClusterName : String
  VerifyIntervalInSeconds : Nat
  LastCloseTime : Nat
  LastStartTime : Nat
  ContinuedAsNewCount : Nat
  TaskQueueUserDataReplicationParams : TaskQueueUserDataReplicationParams
  TaskQueueUserDataReplicationStatus : TaskQueueUserDataReplicationStatus
  ReplicatedWorkflowCount : Int
  TotalForceReplicateWorkflowCount : Int
  EstimationMultiplier : Nat
  QPSQueue : List Nat
deriving Repr, DecidableEq

/-- The status snapshot returned by the `force-replication-status` query
(`ForceReplicationStatus`). -/
structure ForceReplicationStatus where
  LastCloseTime : Nat
  LastStartTime : Nat
  ContinuedAsNewCount : Nat
  TaskQueueUserDataReplicationStatus : TaskQueueUserDataReplicationStatus
  PageTokenForRestart : PageToken
  TotalWorkflowCount : Int
  ReplicatedWorkflowCount : Int
deriving Repr, DecidableEq

/-- One page of workflow executions returned by the `ListWorkflows` activity
(`listWorkflowsResponse`); executions are identified by workflow id, and the
timestamps report the last start/close time observed on the page (0 = none
observed). -/
structure listWorkflowsResponse where
  Executions : List String
  NextPageToken : PageToken
  LastStartTime : Nat
  LastCloseTime : Nat
deriving Repr, DecidableEq

/-- Collaborators and scheduling parameters of one migration execution.
`listWorkflows` is addressed by page token (the request/response contract of
the activity); `generateTasks`/`verifyTasks` give the result of each retry
attempt (1-based) of the per-page activity invocation, indexed by the page's
ordinal within the execution; `verifyFirst` is the race schedule for the
concurrently dispatched generate/verify pair of a page (the operation
scheduled first completes, with its retries, before the sibling is observed);
`seedResult` is the terminal outcome of the user-data sub-migration;
`retryFuel` bounds retries (an activity may attempt at most `retryFuel + 1`
times). -/
structure WorkflowEnv where
  countWorkflowResult : Int
  getMetadataShardCount : Nat
  listWorkflows : PageToken → Except String listWorkflowsResponse
  generateTasks : Nat → Nat → Except ActivityErr Unit
  verifyTasks : Nat → Nat → Except ActivityErr Int
  verifyFirst : Nat → Bool
  seedResult : Except String Unit
  retryFuel : Nat

/-- Final outcome of one migration execution: normal completion, a
continue-as-new restart carrying the successor's input record, or failure. -/
inductive RunOutcome where
  | completed
  | continuedAsNew (next : ForceReplicationParams)
  | failed (msg : String)
deriving Repr, DecidableEq

/-- Collaborator invocations observed during one execution (the counts the
test mocks assert on).  `generateCalls`/`verifyCalls` count activity attempts
as the mocks do. -/
structure Observations where
  countCalls : Nat
  metadataCalls : Nat
  listCalls : Nat
  generateCalls : Nat
  verifyCalls : Nat
  seedLaunched : Bool
deriving Repr, DecidableEq

/-- No collaborator touched. -/
def Observations.none : Observations :=
  { countCalls := 0, metadataCalls := 0, listCalls := 0,
    generateCalls := 0, verifyCalls := 0, seedLaunched := false }

/-- Result of one migration execution: outcome, the status snapshot a query
would return at the end of the execution, and the observed collaborator
calls. -/
structure RunResult where
  outcome : RunOutcome
  status : ForceReplicationStatus
  obs : Observations
deriving Repr, DecidableEq

/-! ## The main force-replication workflow: control -/

/-- Modelled from the spec: default applied to `GetParentInfoRPS` when the
caller leaves it unset (the continuation test expects `2.0`). -/
def defaultGetParentInfoRPS : Nat := 2

/-- Modelled from the spec: default applied to `VerifyIntervalInSeconds` when
the caller leaves it unset (`defaultVerifyIntervalInSeconds` in the test's
expected continuation record). -/
def defaultVerifyIntervalInSeconds : Nat := 60

/-- Modelled from the spec: the freshly re-derived execution-local
rate-estimation multiplier an execution starts from. -/
def initialEstimationMultiplier : Nat := 1

/-- Modelled from the spec: parameter normalisation at execution start —
unset tunables get their defaults and the execution-local rate-estimation
state (`EstimationMultiplier`, `QPSQueue`) is re-derived rather than carried. -/
def normalizeParams (p : ForceReplicationParams) : ForceReplicationParams :=
  { p with
    GetParentInfoRPS :=
      if p.GetParentInfoRPS = 0 then defaultGetParentInfoRPS else p.GetParentInfoRPS
    VerifyIntervalInSeconds :=
      if p.VerifyIntervalInSeconds = 0 then defaultVerifyIntervalInSeconds
      else p.VerifyIntervalInSeconds
    EstimationMultiplier := initialEstimationMultiplier
    QPSQueue := [] }

/-- Validation error for an empty namespace. -/
def invalidNamespaceMessage : String := "InvalidArgument: Namespace is required"

/-- Validation error for a missing target cluster endpoint. -/
def invalidEndpointMessage : String :=
  "InvalidArgument: TargetClusterEndpoint is required"

/-- The engine's retry loop around one activity invocation: `f a` is the
result of attempt `a`; a success or non-retryable error ends the loop, a
retryable error is retried while fuel remains (so at most `fuel + 1` attempts
are made, and an exhausted retry budget surfaces the last retryable error's
message).  Returns the final result and the number of attempts observed. -/
def retryLoop {α : Type} (f : Nat → Except ActivityErr α) : Nat → Nat → Except ActivityErr α × Nat
  | attempt, 0 => (f attempt, 1)
  | attempt, Nat.succ fuel =>
    match f attempt with
    | Except.ok a => (Except.ok a, 1)
    | Except.error (ActivityErr.nonRetryable m) => (Except.error (ActivityErr.nonRetryable m), 1)
    | Except.error (ActivityErr.retryable _) =>
      let r := retryLoop f (attempt + 1) fuel
      (r.1, r.2 + 1)

/-- Modelled from the spec: the per-page task pipeline of the missing
`ForceReplicationWorkflow` body.  Generation and (when enabled) verification
are dispatched concurrently for the page; the race is resolved by the
schedule `env.verifyFirst`: the operation that completes first determines the
error on failure, and on its non-retryable failure the sibling is never
observed.  On success the page contributes the verified-workflow count
reported by verification (0 when verification is disabled).  Returns the
result together with the generate and verify attempts observed. -/
def runPipeline (env : WorkflowEnv) (pageIdx : Nat) (enableVerify : Bool) :
    Except String Int × Nat × Nat :=
  if enableVerify ∧ env.verifyFirst pageIdx then
    match retryLoop (env.verifyTasks pageIdx) 1 env.retryFuel with
    | (Except.error e, vAtt) => (Except.error e.message, 0, vAtt)
    | (Except.ok v, vAtt) =>
      match retryLoop (env.generateTasks pageIdx) 1 env.retryFuel with
      | (Except.error e, gAtt) => (Except.error e.message, gAtt, vAtt)
      | (Except.ok _, gAtt) => (Except.ok v, gAtt, vAtt)
  else
    match retryLoop (env.generateTasks pageIdx) 1 env.retryFuel with
    | (Except.error e, gAtt) => (Except.error e.message, gAtt, 0)
    | (Except.ok _, gAtt) =>
      if enableVerify then
        match retryLoop (env.verifyTasks pageIdx) 1 env.retryFuel with
        | (Except.error e, vAtt) => (Except.error e.message, gAtt, vAtt)
        | (Except.ok v, vAtt) => (Except.ok v, gAtt, vAtt)
      else (Except.ok 0, gAtt, 0)

/-- Mutable state of the scanning loop within one execution. -/
structure ScanState where
  token : PageToken
  lastStartTime : Nat
  lastCloseTime : Nat
  replicated : Int
  listCalls : Nat
  generateCalls : Nat
  verifyCalls : Nat
deriving Repr, DecidableEq

/-- How the scanning loop of one execution ended: the source reported no
further pages, the per-execution page budget was reached with pages
remaining, or a page fetch / pipeline failure aborted the scan. -/
inductive ScanOutcome where
  | exhausted (st : ScanState)
  | budgetReached (st : ScanState)
  | failedScan (st : ScanState) (msg : String)
deriving Repr, DecidableEq

/-- Modelled from the spec: the scanning loop of the missing
`ForceReplicationWorkflow` body.  Up to the page-budget argument many times:
fetch the next page at the current token (a fetch error is terminal), record
the page's observed timestamps, run the per-page pipeline (its failure is
terminal), accumulate the verified count, and stop early when the fetched
page carries no next-page token. -/
def scanPages (env : WorkflowEnv) (enableVerify : Bool) : Nat → ScanState → ScanOutcome
  | 0, st => ScanOutcome.budgetReached st
  | Nat.succ budget, st =>
    match env.listWorkflows st.token with
    | Except.error msg =>
      ScanOutcome.failedScan { st with listCalls := st.listCalls + 1 } msg
    | Except.ok page =>
      let pageIdx := st.listCalls + 1
      let st1 : ScanState :=
        { st with
          listCalls := st.listCalls + 1
          lastStartTime := if page.LastStartTime = 0 then st.lastStartTime else page.LastStartTime
          lastCloseTime := if page.LastCloseTime = 0 then st.lastCloseTime else page.LastCloseTime }
      match runPipeline env pageIdx enableVerify with
      | (Except.error msg, g, v) =>
        ScanOutcome.failedScan
          { st1 with generateCalls := st1.generateCalls + g, verifyCalls := st1.verifyCalls + v } msg
      | (Except.ok verified, g, v) =>
        let st2 : ScanState :=
          { st1 with
            replicated := st1.replicated + verified
            generateCalls := st1.generateCalls + g
            verifyCalls := st1.verifyCalls + v }
        match page.NextPageToken with
        | none => ScanOutcome.exhausted { st2 with token := none }
        | some t => scanPages env enableVerify budget { st2 with token := some t }

/-- Status snapshot from the inbound restart token, the reported
continuation count, the sub-migration status, the total count and the scan
state. -/
def mkStatus (restart : PageToken) (canCount : Nat)
    (tq : TaskQueueUserDataReplicationStatus) (total : Int) (st : ScanState) :
    ForceReplicationStatus :=
  { LastCloseTime := st.lastCloseTime
    LastStartTime := st.lastStartTime
    ContinuedAsNewCount := canCount
    TaskQueueUserDataReplicationStatus := tq
    PageTokenForRestart := restart
    TotalWorkflowCount := total
    ReplicatedWorkflowCount := st.replicated }

/-- The total workflow count an execution works with: counted afresh when the
inbound record carries none (the Go zero value 0), otherwise reused from the
record. -/
def totalWorkflowCount (env : WorkflowEnv) (p : ForceReplicationParams) : Int :=
  if p.TotalForceReplicateWorkflowCount = 0 then env.countWorkflowResult
  else p.TotalForceReplicateWorkflowCount

/-- `CountWorkflow` invocations an execution makes. -/
def countWorkflowCalls (p : ForceReplicationParams) : Nat :=
  if p.TotalForceReplicateWorkflowCount = 0 then 1 else 0

/-- The scan state an execution starts from: the inbound continuation token,
timestamps and replicated count, with no collaborator calls observed yet. -/
def initialScanState (p : ForceReplicationParams) : ScanState :=
  { token := p.NextPageToken
    lastStartTime := p.LastStartTime
    lastCloseTime := p.LastCloseTime
    replicated := p.ReplicatedWorkflowCount
    listCalls := 0
    generateCalls := 0
    verifyCalls := 0 }

/-- Observations of an execution that got past validation: one metadata
fetch, the scan's collaborator calls, and the sub-migration launch flag. -/
def mkObs (countCalls : Nat) (st : ScanState) (seedLaunched : Bool) : Observations :=
  { countCalls := countCalls
    metadataCalls := 1
    listCalls := st.listCalls
    generateCalls := st.generateCalls
    verifyCalls := st.verifyCalls
    seedLaunched := seedLaunched }

/-- Status snapshot for a run that failed validation: nothing ran, so every
reported field comes from the inbound record. -/
def rawStatus (p : ForceReplicationParams) : ForceReplicationStatus :=
  { LastCloseTime := p.LastCloseTime
    LastStartTime := p.LastStartTime
    ContinuedAsNewCount := p.ContinuedAsNewCount
    TaskQueueUserDataReplicationStatus := p.TaskQueueUserDataReplicationStatus
    PageTokenForRestart := p.NextPageToken
    TotalWorkflowCount := p.TotalForceReplicateWorkflowCount
    ReplicatedWorkflowCount := p.ReplicatedWorkflowCount }

/-- Modelled from the spec: the missing `ForceReplicationWorkflow` body, as
one execution.  Validate (an empty namespace is rejected; an empty target
cluster endpoint is rejected only when verification is enabled, which is the
behaviour the invalid-input and list-error tests pin down); normalise
parameters; count total workflows only when the inbound record carries no
count yet; fetch metadata; launch the user-data sub-migration only on the
first execution; run the bounded scanning loop; then either continue as new
with the updated record, or — when the source is exhausted — wait for the
sub-migration's terminal state, merge it into the status, and complete or
fail with it.  The status query's `PageTokenForRestart` is captured from the
inbound record before the scan mutates the token. -/
def ForceReplicationWorkflow (env : WorkflowEnv) (rawParams : ForceReplicationParams) : RunResult :=
  let restart := rawParams.NextPageToken
  if rawParams.Namespace = "" then
    { outcome := RunOutcome.failed invalidNamespaceMessage
      status := rawStatus rawParams
      obs := Observations.none }
  else if rawParams.EnableVerification = true ∧ rawParams.TargetClusterEndpoint = "" then
    { outcome := RunOutcome.failed invalidEndpointMessage
      status := rawStatus rawParams
      obs := Observations.none }
  else
    let params := normalizeParams rawParams
    let total := totalWorkflowCount env params
    let countCalls := countWorkflowCalls params
    let seedLaunched := decide (params.ContinuedAsNewCount = 0)
    match scanPages env params.EnableVerification params.PageCountPerExecution
        (initialScanState params) with
    | ScanOutcome.failedScan st msg =>
      { outcome := RunOutcome.failed msg
        status := mkStatus restart params.ContinuedAsNewCount
          params.TaskQueueUserDataReplicationStatus total st
        obs := mkObs countCalls st seedLaunched }
    | ScanOutcome.budgetReached st =>
      let next : ForceReplicationParams :=
        { params with
          NextPageToken := st.token
          ContinuedAsNewCount := params.ContinuedAsNewCount + 1
          TotalForceReplicateWorkflowCount := total
          ReplicatedWorkflowCount := st.replicated
          LastStartTime := st.lastStartTime
          LastCloseTime := st.lastCloseTime }
      { outcome := RunOutcome.continuedAsNew next
        status := mkStatus restart (params.ContinuedAsNewCount + 1)
          params.TaskQueueUserDataReplicationStatus total st
        obs := mkObs countCalls st seedLaunched }
    | ScanOutcome.exhausted st =>
      match env.seedResult with
      | Except.ok _ =>
        { outcome := RunOutcome.completed
          status := mkStatus restart params.ContinuedAsNewCount ⟨true, ""⟩ total st
          obs := mkObs countCalls st seedLaunched }
      | Except.error msg =>
        { outcome := RunOutcome.failed msg
          status := mkStatus restart params.ContinuedAsNewCount ⟨true, msg⟩ total st
          obs := mkObs countCalls st seedLaunched }

/-- Chain successive executions across continue-as-new boundaries: the record
emitted by a continuation becomes the input of the next execution; `fuel`
bounds the number of continuations taken. -/
def runChain (env : WorkflowEnv) : Nat → ForceReplicationParams → RunResult
  | 0, p => ForceReplicationWorkflow env p
  | Nat.succ fuel, p =>
    let r := ForceReplicationWorkflow env p
    match r.outcome with
    | RunOutcome.continuedAsNew next => runChain env fuel next
    | _ => r

/-! ## Concrete environments mirroring the test scenarios -/

/-- The Go zero value of `ForceReplicationParams`, the base of every test
input. -/
def baseParams : ForceReplicationParams :=
  { Namespace := "", Query := "", ConcurrentActivityCount := 0, OverallRps := 0,
    GetParentInfoRPS := 0, ListWorkflowsPageSize := 0, PageCountPerExecution := 0,
    NextPageToken := none, EnableVerification := false, TargetClusterEndpoint := "",
    TargetClusterName := "", VerifyIntervalInSeconds := 0, LastCloseTime := 0,
    LastStartTime := 0, ContinuedAsNewCount := 0,
    TaskQueueUserDataReplicationParams := ⟨0, 0⟩,
    TaskQueueUserDataReplicationStatus := ⟨false, ""⟩,
    ReplicatedWorkflowCount := 0, TotalForceReplicateWorkflowCount := 0,
    EstimationMultiplier := 0, QPSQueue := [] }

/-- A benign collaborator environment: every generate/verify attempt
succeeds, the sub-migration succeeds, and no page is available unless a
scenario overrides `listWorkflows`. -/
def baseEnv : WorkflowEnv :=
  { countWorkflowResult := 0, getMetadataShardCount := 4,
    listWorkflows := fun _ => Except.error "unexpected ListWorkflows call",
    generateTasks := fun _ _ => Except.ok (),
    verifyTasks := fun _ _ => Except.ok 0,
    verifyFirst := fun _ => false,
    seedResult := Except.ok (),
    retryFuel := 3 }

/-- The 4-page source of `TestForceReplicationWorkflow`: three pages with one
execution each, then a last page that is again non-empty here (one execution,
nil token) so that the source yields exactly 4 non-empty pages of 1 execution
each, all reporting the same observed timestamps. -/
def fourPageSource : PageToken → Except String listWorkflowsResponse := fun tok =>
  match tok with
  | none =>
    Except.ok { Executions := ["wf-1"], NextPageToken := some "t1",
                LastStartTime := 100, LastCloseTime := 200 }
  | some s =>
    if s = "t1" then
      Except.ok { Executions := ["wf-2"], NextPageToken := some "t2",
                  LastStartTime := 100, LastCloseTime := 200 }
    else if s = "t2" then
      Except.ok { Executions := ["wf-3"], NextPageToken := some "t3",
                  LastStartTime := 100, LastCloseTime := 200 }
    else if s = "t3" then
      Except.ok { Executions := ["wf-4"], NextPageToken := none,
                  LastStartTime := 100, LastCloseTime := 200 }
    else Except.error "unknown page token"

/-- Environment of `TestForceReplicationWorkflow`: `CountWorkflow` returns 4,
every `VerifyReplicationTasks` call verifies one execution. -/
def env9 : WorkflowEnv :=
  { baseEnv with
    countWorkflowResult := 4
    listWorkflows := fourPageSource
    verifyTasks := fun _ _ => Except.ok 1 }

/-- Input of `TestForceReplicationWorkflow`: page budget 4, verification
enabled. -/
def p9 : ForceReplicationParams :=
  { baseParams with
    Namespace := "test-ns", ConcurrentActivityCount := 100, OverallRps := 10,
    ListWorkflowsPageSize := 1, PageCountPerExecution := 4,
    EnableVerification := true, TargetClusterEndpoint := "test-target" }

/-- The source of `TestForceReplicationWorkflow_ContinueAsNew`: empty pages
chained through `fake-page-token-1..3`, reached from the inbound
`fake-initial-page-token`; the fourth page is last. -/
def canSource : PageToken → Except String listWorkflowsResponse := fun tok =>
  match tok with
  | none => Except.error "unexpected nil token"
  | some s =>
    if s = "fake-initial-page-token" then
      Except.ok { Executions := [], NextPageToken := some "fake-page-token-1",
                  LastStartTime := 100, LastCloseTime := 200 }
    else if s = "fake-page-token-1" then
      Except.ok { Executions := [], NextPageToken := some "fake-page-token-2",
                  LastStartTime := 100, LastCloseTime := 200 }
    else if s = "fake-page-token-2" then
      Except.ok { Executions := [], NextPageToken := some "fake-page-token-3",
                  LastStartTime := 100, LastCloseTime := 200 }
    else if s = "fake-page-token-3" then
      Except.ok { Executions := [], NextPageToken := none,
                  LastStartTime := 0, LastCloseTime := 0 }
    else Except.error "unknown page token"

/-- Environment of `TestForceReplicationWorkflow_ContinueAsNew`:
`CountWorkflow` returns 10. -/
def envCAN : WorkflowEnv :=
  { baseEnv with countWorkflowResult := 10, listWorkflows := canSource }

/-- Input of `TestForceReplicationWorkflow_ContinueAsNew`: page budget 2 and
an inbound continuation token. -/
def pCAN : ForceReplicationParams :=
  { baseParams with
    Namespace := "test-ns", ConcurrentActivityCount := 2, OverallRps := 10,
    ListWorkflowsPageSize := 1, PageCountPerExecution := 2,
    EnableVerification := true, TargetClusterEndpoint := "test-target",
    NextPageToken := some "fake-initial-page-token" }

/-- The continuation record `TestForceReplicationWorkflow_ContinueAsNew`
expects (`expectedContinueAsNewParams`), with the execution-local
rate-estimation state at its re-derived value. -/
def expectedContinueAsNewParams : ForceReplicationParams :=
  { Namespace := "test-ns", Query := "", ConcurrentActivityCount := 2, OverallRps := 10,
    GetParentInfoRPS := 2, ListWorkflowsPageSize := 1, PageCountPerExecution := 2,
    NextPageToken := some "fake-page-token-2", EnableVerification := true,
    TargetClusterEndpoint := "test-target", TargetClusterName := "",
    VerifyIntervalInSeconds := defaultVerifyIntervalInSeconds,
    LastCloseTime := 200, LastStartTime := 100, ContinuedAsNewCount := 1,
    TaskQueueUserDataReplicationParams := ⟨0, 0⟩,
    TaskQueueUserDataReplicationStatus := ⟨false, ""⟩,
    ReplicatedWorkflowCount := 0, TotalForceReplicateWorkflowCount := 10,
    EstimationMultiplier := initialEstimationMultiplier, QPSQueue := [] }

/-- Environment of `TestForceReplicationWorkflow_ListWorkflowsError`: every
page fetch fails. -/
def env7 : WorkflowEnv :=
  { baseEnv with
    countWorkflowResult := 10
    listWorkflows := fun _ => Except.error "mock listWorkflows error" }

/-- Input of `TestForceReplicationWorkflow_ListWorkflowsError` (note its
empty target cluster endpoint with verification disabled, which validation
accepts). -/
def p7 : ForceReplicationParams :=
  { baseParams with
    Namespace := "test-ns", ConcurrentActivityCount := 2, OverallRps := 10,
    ListWorkflowsPageSize := 1, PageCountPerExecution := 2 }

/-- An endless source of empty pages (page fetches always succeed and always
carry a further token), for the scenarios that fail before the source
matters. -/
def endlessSource : PageToken → Except String listWorkflowsResponse := fun _ =>
  Except.ok { Executions := [], NextPageToken := some "more",
              LastStartTime := 0, LastCloseTime := 0 }

/-- Environment of
`TestForceReplicationWorkflow_GenerateReplicationTaskNonRetryableError`,
generalised to fail on the third attempt: attempts 1 and 2 of every
`GenerateReplicationTasks` invocation fail retryably, attempt 3 fails
non-retryably. -/
def env5 : WorkflowEnv :=
  { baseEnv with
    countWorkflowResult := 10
    listWorkflows := endlessSource
    generateTasks := fun _ k =>
      if k < 3 then Except.error (ActivityErr.retryable "transient generate error")
      else if k = 3 then
        Except.error (ActivityErr.nonRetryable "mock generate replication tasks error")
      else Except.ok ()
    retryFuel := 4 }

/-- Input of the generate-error scenario: verification enabled, page budget
4. -/
def p5 : ForceReplicationParams :=
  { baseParams with
    Namespace := "test-ns", ConcurrentActivityCount := 1, OverallRps := 10,
    ListWorkflowsPageSize := 1, PageCountPerExecution := 4,
    EnableVerification := true, TargetClusterEndpoint := "test-target" }

/-- Environment of
`TestForceReplicationWorkflow_VerifyReplicationTaskNonRetryableError`: the
verify operation is scheduled first and fails non-retryably on its first
attempt. -/
def env6 : WorkflowEnv :=
  { baseEnv with
    countWorkflowResult := 10
    listWorkflows := endlessSource
    verifyTasks := fun _ _ =>
      Except.error (ActivityErr.nonRetryable "mock verify replication tasks error")
    verifyFirst := fun _ => true }

/-- A source consisting of a single empty last page (the shape the
task-queue-replication-failure test mocks). -/
def onePageSource : PageToken → Except String listWorkflowsResponse := fun _ =>
  Except.ok { Executions := [], NextPageToken := none,
              LastStartTime := 0, LastCloseTime := 0 }

/-- Environment of `TestForceReplicationWorkflow_TaskQueueReplicationFailure`:
the source is exhausted immediately and the user-data sub-migration ends in a
non-retryable failure. -/
def env8 : WorkflowEnv :=
  { baseEnv with
    countWorkflowResult := 10
    listWorkflows := onePageSource
    seedResult := Except.error "namespace is required" }

/-- Input of the task-queue-replication-failure scenario. -/
def p8 : ForceReplicationParams :=
  { baseParams with
    Namespace := "test-ns", ConcurrentActivityCount := 2, OverallRps := 10,
    ListWorkflowsPageSize := 1, PageCountPerExecution := 2 }

/-- A fully benign single-page environment: one empty last page, everything
succeeds. -/
def envOnePageOk : WorkflowEnv :=
  { baseEnv with countWorkflowResult := 10, listWorkflows := onePageSource }

/-- An input with a namespace but an empty target-cluster endpoint and
verification disabled — the configuration the list-error and
task-queue-failure tests run with. -/
def pNoEndpoint : ForceReplicationParams :=
  { baseParams with Namespace := "test-ns", PageCountPerExecution := 1 }

/-- An input with a namespace and verification enabled but no target cluster
endpoint (the second case of `TestForceReplicationWorkflow_InvalidInput`). -/
def pEmptyEndpointVerify : ForceReplicationParams :=
  { baseParams with Namespace := "some-namespace", EnableVerification := true }

/-- Token sequence of a concrete 3-page linear source. -/
def linToks : Nat → PageToken := fun i =>
  match i with
  | 0 => none
  | 1 => some "w1"
  | 2 => some "w2"
  | _ => some "w-overflow"

/-- A concrete 3-page source following `linToks`. -/
def linSource : PageToken → Except String listWorkflowsResponse := fun tok =>
  match tok with
  | none =>
    Except.ok { Executions := ["wf-a"], NextPageToken := some "w1",
                LastStartTime := 10, LastCloseTime := 20 }
  | some s =>
    if s = "w1" then
      Except.ok { Executions := ["wf-b"], NextPageToken := some "w2",
                  LastStartTime := 10, LastCloseTime := 20 }
    else if s = "w2" then
      Except.ok { Executions := ["wf-c"], NextPageToken := none,
                  LastStartTime := 10, LastCloseTime := 20 }
    else Except.error "unknown page token"

/-- Benign environment over the concrete 3-page source. -/
def linEnv : WorkflowEnv :=
  { baseEnv with
    countWorkflowResult := 3
    listWorkflows := linSource
    verifyTasks := fun _ _ => Except.ok 1 }

/-- A fresh input with page budget 2 over the 3-page source, so one
continuation is needed. -/
def linParams : ForceReplicationParams :=
  { baseParams with
    Namespace := "test-ns", TargetClusterEndpoint := "test-target",
    EnableVerification := true, ListWorkflowsPageSize := 1,
    PageCountPerExecution := 2 }

/-- A `P`-page linear source over the token sequence `toks`: page `i + 1` is
fetched with `toks i`, the first fetch uses a nil token, intermediate tokens
are non-nil, and the `P`-th page carries no next-page token. -/
def IsLinearSource (env : WorkflowEnv) (toks : Nat → PageToken) (P : Nat) : Prop :=
  toks 0 = none ∧
  (∀ j, 0 < j → j < P → toks j ≠ none) ∧
  (∀ i, i < P → ∃ resp, env.listWorkflows (toks i) = Except.ok resp ∧
    resp.NextPageToken = (if i + 1 < P then toks (i + 1) else none))

/-! ## Helper lemmas -/

@[simp] theorem normalizeParams_Namespace (p : ForceReplicationParams) :
    (normalizeParams p).Namespace = p.Namespace := rfl

@[simp] theorem normalizeParams_Query (p : ForceReplicationParams) :
    (normalizeParams p).Query = p.Query := rfl

@[simp] theorem normalizeParams_ConcurrentActivityCount (p : ForceReplicationParams) :
    (normalizeParams p).ConcurrentActivityCount = p.ConcurrentActivityCount := rfl

@[simp] theorem normalizeParams_OverallRps (p : ForceReplicationParams) :
    (normalizeParams p).OverallRps = p.OverallRps := rfl

@[simp] theorem normalizeParams_ListWorkflowsPageSize (p : ForceReplicationParams) :
    (normalizeParams p).ListWorkflowsPageSize = p.ListWorkflowsPageSize := rfl

@[simp] theorem normalizeParams_PageCountPerExecution (p : ForceReplicationParams) :
    (normalizeParams p).PageCountPerExecution = p.PageCountPerExecution := rfl

@[simp] theorem normalizeParams_NextPageToken (p : ForceReplicationParams) :
    (normalizeParams p).NextPageToken = p.NextPageToken := rfl

@[simp] theorem normalizeParams_EnableVerification (p : ForceReplicationParams) :
    (normalizeParams p).EnableVerification = p.EnableVerification := rfl

@[simp] theorem normalizeParams_TargetClusterEndpoint (p : ForceReplicationParams) :
    (normalizeParams p).TargetClusterEndpoint = p.TargetClusterEndpoint := rfl

@[simp] theorem normalizeParams_TargetClusterName (p : ForceReplicationParams) :
    (normalizeParams p).TargetClusterName = p.TargetClusterName := rfl

@[simp] theorem normalizeParams_LastCloseTime (p : ForceReplicationParams) :
    (normalizeParams p).LastCloseTime = p.LastCloseTime := rfl

@[simp] theorem normalizeParams_LastStartTime (p : ForceReplicationParams) :
    (normalizeParams p).LastStartTime = p.LastStartTime := rfl

@[simp] theorem normalizeParams_ContinuedAsNewCount (p : ForceReplicationParams) :
    (normalizeParams p).ContinuedAsNewCount = p.ContinuedAsNewCount := rfl

@[simp] theorem normalizeParams_TQParams (p : ForceReplicationParams) :
    (normalizeParams p).TaskQueueUserDataReplicationParams =
      p.TaskQueueUserDataReplicationParams := rfl

@[simp] theorem normalizeParams_TQStatus (p : ForceReplicationParams) :
    (normalizeParams p).TaskQueueUserDataReplicationStatus =
      p.TaskQueueUserDataReplicationStatus := rfl

@[simp] theorem normalizeParams_ReplicatedWorkflowCount (p : ForceReplicationParams) :
    (normalizeParams p).ReplicatedWorkflowCount = p.ReplicatedWorkflowCount := rfl

@[simp] theorem normalizeParams_TotalCount (p : ForceReplicationParams) :
    (normalizeParams p).TotalForceReplicateWorkflowCount =
      p.TotalForceReplicateWorkflowCount := rfl

/-- A first-attempt success ends the retry loop after one observed attempt. -/
theorem retryLoop_ok {α : Type} {f : Nat → Except ActivityErr α} {a : Nat} {x : α}
    (h : f a = Except.ok x) :
    ∀ fuel, retryLoop f a fuel = (Except.ok x, 1)
  | 0 => by simp [retryLoop, h]
  | Nat.succ fuel => by simp [retryLoop, h]

/-- A first-attempt non-retryable error ends the retry loop after one
observed attempt. -/
theorem retryLoop_nonRetryable_first {α : Type} {f : Nat → Except ActivityErr α} {a : Nat}
    {m : String} (h : f a = Except.error (ActivityErr.nonRetryable m)) :
    ∀ fuel, retryLoop f a fuel = (Except.error (ActivityErr.nonRetryable m), 1)
  | 0 => by simp [retryLoop, h]
  | Nat.succ fuel => by simp [retryLoop, h]

/-- If attempts `a..N-1` fail retryably and attempt `N` fails non-retryably,
the retry loop started at attempt `a` with enough fuel surfaces the
non-retryable error after exactly `N + 1 - a` observed attempts. -/
theorem retryLoop_terminal {α : Type} {f : Nat → Except ActivityErr α} {msg : String} :
    ∀ (fuel a N : Nat), a ≤ N → N ≤ a + fuel →
    (∀ k, a ≤ k → k < N → ∃ m, f k = Except.error (ActivityErr.retryable m)) →
    f N = Except.error (ActivityErr.nonRetryable msg) →
    retryLoop f a fuel = (Except.error (ActivityErr.nonRetryable msg), N + 1 - a) := by
  intro fuel
  induction fuel with
  | zero =>
    intro a N haN hNa _ hN
    have : N = a := by omega
    subst this
    simp [retryLoop, hN]
  | succ fuel ih =>
    intro a N haN hNa hret hN
    rcases Nat.eq_or_lt_of_le haN with heq | hlt
    · subst heq
      simp [retryLoop, hN]
    · obtain ⟨m, hm⟩ := hret a le_rfl hlt
      have ihr := ih (a + 1) N hlt (by omega)
        (fun k hk1 hk2 => hret k (by omega) hk2) hN
      simp only [retryLoop, hm, ihr]
      exact Prod.ext rfl (by omega)

/-- When both the generate and the verify first attempts succeed, the
pipeline succeeds with one generate attempt, one verify attempt when
verification is enabled, and the verified count (0 when verification is
disabled). -/
theorem runPipeline_ok {env : WorkflowEnv} {i : Nat} {v : Int} (ev : Bool)
    (hg : env.generateTasks i 1 = Except.ok ())
    (hv : env.verifyTasks i 1 = Except.ok v) :
    runPipeline env i ev = (Except.ok (if ev then v else 0), 1, if ev then 1 else 0) := by
  have hgl := retryLoop_ok hg env.retryFuel
  have hvl := retryLoop_ok hv env.retryFuel
  unfold runPipeline
  by_cases h : ev = true ∧ env.verifyFirst i = true
  · rw [if_pos ⟨h.1, h.2⟩, hvl, hgl]
    simp [h.1]
  · rw [if_neg (by simpa using h), hgl]
    by_cases hev : ev = true
    · rw [if_pos hev, hvl]
      simp [hev]
    · have : ev = false := by simpa using hev
      subst this
      simp

/-- When generation is scheduled first and its retry loop ends in an error,
the pipeline fails with that error's message and verification is never
observed. -/
theorem runPipeline_gen_error {env : WorkflowEnv} {i n : Nat} {e : ActivityErr} (ev : Bool)
    (hvf : env.verifyFirst i = false)
    (hgen : retryLoop (env.generateTasks i) 1 env.retryFuel = (Except.error e, n)) :
    runPipeline env i ev = (Except.error e.message, n, 0) := by
  unfold runPipeline
  rw [if_neg (by simp [hvf]), hgen]

/-- When verification is scheduled first and its retry loop ends in an error,
the pipeline fails with that error's message and generation is never
observed. -/
theorem runPipeline_verify_error {env : WorkflowEnv} {i n : Nat} {e : ActivityErr}
    (hvf : env.verifyFirst i = true)
    (hver : retryLoop (env.verifyTasks i) 1 env.retryFuel = (Except.error e, n)) :
    runPipeline env i true = (Except.error e.message, 0, n) := by
  unfold runPipeline
  rw [if_pos (by simp [hvf]), hver]

/-- A page-fetch error aborts the scan immediately, after that one fetch. -/
theorem scanPages_fetch_error {env : WorkflowEnv} {ev : Bool} {st : ScanState} {msg : String}
    (budget : Nat) (h : env.listWorkflows st.token = Except.error msg) :
    scanPages env ev (budget + 1) st =
      ScanOutcome.failedScan { st with listCalls := st.listCalls + 1 } msg := by
  simp [scanPages, h]

/-- A pipeline failure on the fetched page aborts the scan with the
pipeline's error and the observed attempt counts. -/
theorem scanPages_pipeline_error {env : WorkflowEnv} {ev : Bool} {st : ScanState}
    {msg : String} {page : listWorkflowsResponse} {g v : Nat} (budget : Nat)
    (hfetch : env.listWorkflows st.token = Except.ok page)
    (hpipe : runPipeline env (st.listCalls + 1) ev = (Except.error msg, g, v)) :
    scanPages env ev (budget + 1) st =
      ScanOutcome.failedScan
        { st with
          listCalls := st.listCalls + 1
          lastStartTime := if page.LastStartTime = 0 then st.lastStartTime else page.LastStartTime
          lastCloseTime := if page.LastCloseTime = 0 then st.lastCloseTime else page.LastCloseTime
          generateCalls := st.generateCalls + g
          verifyCalls := st.verifyCalls + v } msg := by
  simp [scanPages, hfetch, hpipe]

/-- Scanning a linear source with a benign pipeline and a budget that falls
short of the remaining pages ends with the budget reached and the token
positioned `n` pages further. -/
theorem scanPages_linear_budget {env : WorkflowEnv} {toks : Nat → PageToken} {P : Nat}
    (ev : Bool) (h : IsLinearSource env toks P)
    (hg : ∀ i, env.generateTasks i 1 = Except.ok ())
    (hv : ∀ i, ∃ v, env.verifyTasks i 1 = Except.ok v) :
    ∀ n i st, st.token = toks i → i + n < P →
    ∃ st', scanPages env ev n st = ScanOutcome.budgetReached st' ∧ st'.token = toks (i + n) := by
  obtain ⟨hfirst, hpos, hfetch⟩ := h
  intro n
  induction n with
  | zero =>
    intro i st hst _
    exact ⟨st, by simp [scanPages], by simpa using hst⟩
  | succ n ih =>
    intro i st hst hiP
    obtain ⟨resp, hresp, hnext⟩ := hfetch i (by omega)
    obtain ⟨v, hvv⟩ := hv (st.listCalls + 1)
    have hpipe := runPipeline_ok ev (hg (st.listCalls + 1)) hvv
    have hi1 : i + 1 < P := by omega
    rw [if_pos hi1] at hnext
    obtain ⟨t, ht⟩ : ∃ t, toks (i + 1) = some t := by
      rcases hh : toks (i + 1) with _ | t
      · exact absurd hh (hpos (i + 1) (by omega) hi1)
      · exact ⟨t, rfl⟩
    have hrw : env.listWorkflows st.token = Except.ok resp := by rw [hst]; exact hresp
    obtain ⟨st', hscan, htok'⟩ :=
      ih (i + 1)
        { st with
            listCalls := st.listCalls + 1
            lastStartTime :=
              if resp.LastStartTime = 0 then st.lastStartTime else resp.LastStartTime
            lastCloseTime :=
              if resp.LastCloseTime = 0 then st.lastCloseTime else resp.LastCloseTime
            replicated := st.replicated + (if ev then v else 0)
            generateCalls := st.generateCalls + 1
            verifyCalls := st.verifyCalls + (if ev then 1 else 0)
            token := some t }
        ht.symm (by omega)
    refine ⟨st', ?_, by rw [htok']; exact congrArg toks (by omega)⟩
    simp only [scanPages, hrw, hpipe, hnext, ht]
    exact hscan

/-- Scanning a linear source with a benign pipeline and a budget that covers
the remaining pages ends with the source exhausted. -/
theorem scanPages_linear_exhaust {env : WorkflowEnv} {toks : Nat → PageToken} {P : Nat}
    (ev : Bool) (h : IsLinearSource env toks P)
    (hg : ∀ i, env.generateTasks i 1 = Except.ok ())
    (hv : ∀ i, ∃ v, env.verifyTasks i 1 = Except.ok v) :
    ∀ n i st, st.token = toks i → i < P → P ≤ i + n →
    ∃ st', scanPages env ev n st = ScanOutcome.exhausted st' := by
  obtain ⟨hfirst, hpos, hfetch⟩ := h
  intro n
  induction n with
  | zero => intro i st _ hiP hPi; omega
  | succ n ih =>
    intro i st hst hiP hPi
    obtain ⟨resp, hresp, hnext⟩ := hfetch i hiP
    obtain ⟨v, hvv⟩ := hv (st.listCalls + 1)
    have hpipe := runPipeline_ok ev (hg (st.listCalls + 1)) hvv
    have hrw : env.listWorkflows st.token = Except.ok resp := by rw [hst]; exact hresp
    by_cases hi1 : i + 1 < P
    · rw [if_pos hi1] at hnext
      obtain ⟨t, ht⟩ : ∃ t, toks (i + 1) = some t := by
        rcases hh : toks (i + 1) with _ | t
        · exact absurd hh (hpos (i + 1) (by omega) hi1)
        · exact ⟨t, rfl⟩
      obtain ⟨st', hscan⟩ :=
        ih (i + 1)
          { st with
              listCalls := st.listCalls + 1
              lastStartTime :=
                if resp.LastStartTime = 0 then st.lastStartTime else resp.LastStartTime
              lastCloseTime :=
                if resp.LastCloseTime = 0 then st.lastCloseTime else resp.LastCloseTime
              replicated := st.replicated + (if ev then v else 0)
              generateCalls := st.generateCalls + 1
              verifyCalls := st.verifyCalls + (if ev then 1 else 0)
              token := some t }
          ht.symm hi1 (by omega)
      refine ⟨st', ?_⟩
      simp only [scanPages, hrw, hpipe, hnext, ht]
      exact hscan
    · rw [if_neg hi1] at hnext
      suffices hsuf : ∃ st', scanPages env ev (n + 1) st = ScanOutcome.exhausted st' from hsuf
      simp only [scanPages, hrw, hpipe, hnext]
      exact ⟨_, rfl⟩

@[simp] theorem totalWorkflowCount_normalize (env : WorkflowEnv) (p : ForceReplicationParams) :
    totalWorkflowCount env (normalizeParams p) = totalWorkflowCount env p := rfl

@[simp] theorem countWorkflowCalls_normalize (p : ForceReplicationParams) :
    countWorkflowCalls (normalizeParams p) = countWorkflowCalls p := rfl

@[simp] theorem initialScanState_normalize (p : ForceReplicationParams) :
    initialScanState (normalizeParams p) = initialScanState p := rfl

/-- How one execution reduces when validation passes and the scan reaches the
page budget: a continue-as-new emitting the updated record. -/
theorem run_eq_budget {env : WorkflowEnv} {p : ForceReplicationParams} {st : ScanState}
    (hns : ¬p.Namespace = "")
    (hep : ¬(p.EnableVerification = true ∧ p.TargetClusterEndpoint = ""))
    (hscan : scanPages env p.EnableVerification p.PageCountPerExecution (initialScanState p)
      = ScanOutcome.budgetReached st) :
    ForceReplicationWorkflow env p =
      { outcome := RunOutcome.continuedAsNew
          { normalizeParams p with
            NextPageToken := st.token
            ContinuedAsNewCount := p.ContinuedAsNewCount + 1
            TotalForceReplicateWorkflowCount := totalWorkflowCount env p
            ReplicatedWorkflowCount := st.replicated
            LastStartTime := st.lastStartTime
            LastCloseTime := st.lastCloseTime }
        status := mkStatus p.NextPageToken (p.ContinuedAsNewCount + 1)
          p.TaskQueueUserDataReplicationStatus (totalWorkflowCount env p) st
        obs := mkObs (countWorkflowCalls p) st (decide (p.ContinuedAsNewCount = 0)) } := by
  unfold ForceReplicationWorkflow
  rw [if_neg hns, if_neg hep]
  simp only [normalizeParams_EnableVerification, normalizeParams_PageCountPerExecution,
    initialScanState_normalize, totalWorkflowCount_normalize, countWorkflowCalls_normalize,
    normalizeParams_ContinuedAsNewCount, normalizeParams_NextPageToken, normalizeParams_TQStatus,
    hscan]

/-- How one execution reduces when validation passes, the scan exhausts the
source, and the sub-migration's terminal state is a success: completion with
a done sub-migration status. -/
theorem run_eq_exhausted_ok {env : WorkflowEnv} {p : ForceReplicationParams} {st : ScanState}
    (hns : ¬p.Namespace = "")
    (hep : ¬(p.EnableVerification = true ∧ p.TargetClusterEndpoint = ""))
    (hseed : env.seedResult = Except.ok ())
    (hscan : scanPages env p.EnableVerification p.PageCountPerExecution (initialScanState p)
      = ScanOutcome.exhausted st) :
    ForceReplicationWorkflow env p =
      { outcome := RunOutcome.completed
        status := mkStatus p.NextPageToken p.ContinuedAsNewCount ⟨true, ""⟩
          (totalWorkflowCount env p) st
        obs := mkObs (countWorkflowCalls p) st (decide (p.ContinuedAsNewCount = 0)) } := by
  unfold ForceReplicationWorkflow
  rw [if_neg hns, if_neg hep]
  simp only [normalizeParams_EnableVerification, normalizeParams_PageCountPerExecution,
    initialScanState_normalize, totalWorkflowCount_normalize, countWorkflowCalls_normalize,
    normalizeParams_ContinuedAsNewCount, normalizeParams_NextPageToken, hscan, hseed]

/-- How one execution reduces when validation passes, the scan exhausts the
source, and the sub-migration's terminal state is a failure: the migration
fails with that failure's message, which the status also records. -/
theorem run_eq_exhausted_failed {env : WorkflowEnv} {p : ForceReplicationParams} {st : ScanState}
    {msg : String} (hns : ¬p.Namespace = "")
    (hep : ¬(p.EnableVerification = true ∧ p.TargetClusterEndpoint = ""))
    (hseed : env.seedResult = Except.error msg)
    (hscan : scanPages env p.EnableVerification p.PageCountPerExecution (initialScanState p)
      = ScanOutcome.exhausted st) :
    ForceReplicationWorkflow env p =
      { outcome := RunOutcome.failed msg
        status := mkStatus p.NextPageToken p.ContinuedAsNewCount ⟨true, msg⟩
          (totalWorkflowCount env p) st
        obs := mkObs (countWorkflowCalls p) st (decide (p.ContinuedAsNewCount = 0)) } := by
  unfold ForceReplicationWorkflow
  rw [if_neg hns, if_neg hep]
  simp only [normalizeParams_EnableVerification, normalizeParams_PageCountPerExecution,
    initialScanState_normalize, totalWorkflowCount_normalize, countWorkflowCalls_normalize,
    normalizeParams_ContinuedAsNewCount, normalizeParams_NextPageToken, hscan, hseed]

/-- Chained executions over a `P`-page linear source with page budget `B`:
starting at page index `i`, the migration completes after `(P - 1 - i) / B`
further continuations, and the final execution reports the token it was
started with as `PageTokenForRestart`. -/
theorem runChain_linear {env : WorkflowEnv} {toks : Nat → PageToken} {P B : Nat}
    (h : IsLinearSource env toks P)
    (hg : ∀ j, env.generateTasks j 1 = Except.ok ())
    (hv : ∀ j, ∃ v, env.verifyTasks j 1 = Except.ok v)
    (hseed : env.seedResult = Except.ok ())
    (hB : 1 ≤ B) :
    ∀ (fuel i : Nat) (p : ForceReplicationParams),
      ¬p.Namespace = "" → ¬(p.EnableVerification = true ∧ p.TargetClusterEndpoint = "") →
      p.NextPageToken = toks i → p.PageCountPerExecution = B → i < P →
      (P - 1 - i) / B ≤ fuel →
      (runChain env fuel p).outcome = RunOutcome.completed ∧
      (runChain env fuel p).status.ContinuedAsNewCount
        = p.ContinuedAsNewCount + (P - 1 - i) / B ∧
      (runChain env fuel p).status.PageTokenForRestart
        = toks (i + ((P - 1 - i) / B) * B) := by
  intro fuel
  induction fuel with
  | zero =>
    intro i p hns hep htok hBp hi hfuel
    have hq0 : (P - 1 - i) / B = 0 := Nat.le_zero.mp hfuel
    have hPiB : P ≤ i + B := by
      by_contra hcon
      have hBle : B ≤ P - 1 - i := by omega
      have : 1 ≤ (P - 1 - i) / B := (Nat.one_le_div_iff (by omega)).mpr hBle
      omega
    obtain ⟨st, hscan⟩ :=
      scanPages_linear_exhaust p.EnableVerification h hg hv p.PageCountPerExecution i
        (initialScanState p) htok hi (by omega)
    have hrun := run_eq_exhausted_ok hns hep hseed hscan
    rw [hq0]
    simp only [Nat.zero_mul, Nat.add_zero]
    simp only [runChain, hrun, mkStatus]
    exact ⟨trivial, trivial, htok⟩
  | succ fuel ih =>
    intro i p hns hep htok hBp hi hfuel
    by_cases hPiB : P ≤ i + B
    · have hq0 : (P - 1 - i) / B = 0 := Nat.div_eq_of_lt (by omega)
      obtain ⟨st, hscan⟩ :=
        scanPages_linear_exhaust p.EnableVerification h hg hv p.PageCountPerExecution i
          (initialScanState p) htok hi (by omega)
      have hrun := run_eq_exhausted_ok hns hep hseed hscan
      rw [hq0]
      simp only [Nat.zero_mul, Nat.add_zero]
      simp only [runChain, hrun, mkStatus]
      exact ⟨trivial, trivial, htok⟩
    · have hiB : i + B < P := by omega
      obtain ⟨st, hscan, htokst⟩ :=
        scanPages_linear_budget p.EnableVerification h hg hv p.PageCountPerExecution i
          (initialScanState p) htok (by omega)
      have hrun := run_eq_budget hns hep hscan
      have hBle : B ≤ P - 1 - i := by omega
      have hq : (P - 1 - i) / B = (P - 1 - i - B) / B + 1 :=
        Nat.div_eq_sub_div (by omega) hBle
      have hsub : P - 1 - (i + B) = P - 1 - i - B := by omega
      have hmain := ih (i + B)
        { normalizeParams p with
          NextPageToken := st.token
          ContinuedAsNewCount := p.ContinuedAsNewCount + 1
          TotalForceReplicateWorkflowCount := totalWorkflowCount env p
          ReplicatedWorkflowCount := st.replicated
          LastStartTime := st.lastStartTime
          LastCloseTime := st.lastCloseTime }
        hns hep (by simpa using htokst.trans (congrArg toks (by omega)))
        hBp hiB (by rw [hsub]; omega)
      simp only [runChain, hrun]
      refine ⟨hmain.1, ?_, ?_⟩
      · rw [hmain.2.1, hq]
        have hc : ({ normalizeParams p with
            NextPageToken := st.token
            ContinuedAsNewCount := p.ContinuedAsNewCount + 1
            TotalForceReplicateWorkflowCount := totalWorkflowCount env p
            ReplicatedWorkflowCount := st.replicated
            LastStartTime := st.lastStartTime
            LastCloseTime := st.lastCloseTime } : ForceReplicationParams).ContinuedAsNewCount
            = p.ContinuedAsNewCount + 1 := rfl
        rw [hc, hsub]
        ring
      · rw [hmain.2.2, hsub]
        refine congrArg toks ?_
        rw [hq]
        ring

/-- How one execution reduces on an empty namespace: immediate
invalid-argument failure with no collaborator calls. -/
theorem run_eq_invalid_namespace {env : WorkflowEnv} {p : ForceReplicationParams}
    (hns : p.Namespace = "") :
    ForceReplicationWorkflow env p =
      { outcome := RunOutcome.failed invalidNamespaceMessage
        status := rawStatus p
        obs := Observations.none } := by
  unfold ForceReplicationWorkflow
  rw [if_pos hns]

/-- How one execution reduces when verification is enabled but the target
cluster endpoint is empty: immediate invalid-argument failure with no
collaborator calls. -/
theorem run_eq_invalid_endpoint {env : WorkflowEnv} {p : ForceReplicationParams}
    (hns : ¬p.Namespace = "")
    (hep : p.EnableVerification = true ∧ p.TargetClusterEndpoint = "") :
    ForceReplicationWorkflow env p =
      { outcome := RunOutcome.failed invalidEndpointMessage
        status := rawStatus p
        obs := Observations.none } := by
  unfold ForceReplicationWorkflow
  rw [if_neg hns, if_pos hep]

/-- The publish loop never fetches pages: the trace's requested-token list is
untouched. -/
theorem publishLoop_listTokens (env : SeedEnv) (tok : PageToken) :
    ∀ (l : List TaskQueueUserDataEntry) (i : Nat) (st : SeedSt),
      ((publishLoop env tok l i st).1).listTokens = st.listTokens := by
  intro l
  induction l with
  | nil => intro i st; rfl
  | cons e rest ih =>
    intro i st
    simp only [publishLoop]
    cases hx : env.publish (st.pubCalls + 1) e.TaskQueue with
    | error msg => rfl
    | ok u => exact ih _ _

/-- The seed scan completes successfully only by fetching a page whose token
is empty/nil and whose entry list is empty: on success, the last requested
token resolves to exactly such a page. -/
theorem seedScan_complete (env : SeedEnv) :
    ∀ (fuel : Nat) (tok : PageToken) (idx : Nat) (st st' : SeedSt),
      seedScan env fuel tok idx st = (st', none) →
      ∃ t resp, st'.listTokens.getLast? = some t ∧ env.listEntries t = Except.ok resp ∧
        resp.NextPageToken = none ∧ resp.Entries = [] := by
  intro fuel
  induction fuel with
  | zero =>
    intro tok idx st st' h
    simp [seedScan] at h
  | succ fuel ih =>
    intro tok idx st st' h
    simp only [seedScan] at h
    split at h
    · exact absurd (congrArg Prod.snd h) (by simp)
    · rename_i resp hx
      split at h
      · exact absurd (congrArg Prod.snd h) (by simp)
      · rename_i st1 hy
        split at h
        · rename_i hc
          have hst' : st' = st1 := (congrArg Prod.fst h).symm
          have htr : st1.listTokens = st.listTokens ++ [tok] := by
            have hts := publishLoop_listTokens env tok (resp.Entries.drop idx) idx
              { st with listTokens := st.listTokens ++ [tok] }
            rw [hy] at hts
            simpa using hts
          refine ⟨tok, resp, ?_, hx, hc.1, hc.2⟩
          rw [hst', htr]
          exact List.getLast?_concat _
        · exact ih _ _ _ _ h

/-- The scanning loop never reads the sub-migration's terminal state. -/
theorem scanPages_seed_invariant (env : WorkflowEnv) (s : Except String Unit) (ev : Bool) :
    ∀ (n : Nat) (st : ScanState),
      scanPages { env with seedResult := s } ev n st = scanPages env ev n st := by
  intro n
  induction n with
  | zero => intro st; rfl
  | succ n ih =>
    intro st
    have hl : ({ env with seedResult := s } : WorkflowEnv).listWorkflows
        = env.listWorkflows := rfl
    have hp : runPipeline { env with seedResult := s } = runPipeline env := rfl
    simp only [scanPages, hl, hp]
    split
    · rfl
    · split
      · rfl
      · split
        · rfl
        · exact ih _

/-- How one execution reduces when validation passes and the scan aborts: the
migration fails with the scan's error. -/
theorem run_eq_failedScan {env : WorkflowEnv} {p : ForceReplicationParams} {st : ScanState}
    {msg : String} (hns : ¬p.Namespace = "")
    (hep : ¬(p.EnableVerification = true ∧ p.TargetClusterEndpoint = ""))
    (hscan : scanPages env p.EnableVerification p.PageCountPerExecution (initialScanState p)
      = ScanOutcome.failedScan st msg) :
    ForceReplicationWorkflow env p =
      { outcome := RunOutcome.failed msg
        status := mkStatus p.NextPageToken p.ContinuedAsNewCount
          p.TaskQueueUserDataReplicationStatus (totalWorkflowCount env p) st
        obs := mkObs (countWorkflowCalls p) st (decide (p.ContinuedAsNewCount = 0)) } := by
  unfold ForceReplicationWorkflow
  rw [if_neg hns, if_neg hep]
  simp only [normalizeParams_EnableVerification, normalizeParams_PageCountPerExecution,
    initialScanState_normalize, totalWorkflowCount_normalize, countWorkflowCalls_normalize,
    normalizeParams_ContinuedAsNewCount, normalizeParams_NextPageToken, normalizeParams_TQStatus,
    hscan]

/-- An execution that continues as new never reads the sub-migration's
terminal state: replacing it in the environment leaves the run unchanged. -/
theorem run_seed_invariant (env : WorkflowEnv) (p : ForceReplicationParams)
    (s : Except String Unit)
    (h : ∃ next, (ForceReplicationWorkflow env p).outcome = RunOutcome.continuedAsNew next) :
    ForceReplicationWorkflow { env with seedResult := s } p = ForceReplicationWorkflow env p := by
  by_cases hns : p.Namespace = ""
  · rw [run_eq_invalid_namespace hns, run_eq_invalid_namespace hns]
  · by_cases hep : p.EnableVerification = true ∧ p.TargetClusterEndpoint = ""
    · rw [run_eq_invalid_endpoint hns hep, run_eq_invalid_endpoint hns hep]
    · cases hscan : scanPages env p.EnableVerification p.PageCountPerExecution
          (initialScanState p) with
      | exhausted st =>
        obtain ⟨next, hout⟩ := h
        cases hseed : env.seedResult with
        | error m =>
          rw [run_eq_exhausted_failed hns hep hseed hscan] at hout
          exact absurd hout (by simp)
        | ok u =>
          cases u
          rw [run_eq_exhausted_ok hns hep hseed hscan] at hout
          exact absurd hout (by simp)
      | budgetReached st =>
        have hscan' : scanPages { env with seedResult := s } p.EnableVerification
            p.PageCountPerExecution (initialScanState p) = ScanOutcome.budgetReached st := by
          rw [scanPages_seed_invariant]
          exact hscan
        rw [run_eq_budget hns hep hscan', run_eq_budget hns hep hscan]
        rfl
      | failedScan st msg =>
        obtain ⟨next, hout⟩ := h
        rw [run_eq_failedScan hns hep hscan] at hout
        exact absurd hout (by simp)

/-- The concrete 3-page source is a linear source over `linToks`. -/
theorem lin_isLinearSource : IsLinearSource linEnv linToks 3 := by
  refine ⟨rfl, ?_, ?_⟩
  · intro j h0 h3
    interval_cases j <;> simp [linToks]
  · intro i hi
    interval_cases i
    · exact ⟨_, rfl, by decide⟩
    · exact ⟨_, rfl, by decide⟩
    · exact ⟨_, rfl, by decide⟩

/-! ## Claims -/

/-- C4, counterexample.  The claim says every input with a namespace but an
empty target-cluster endpoint fails immediately with an invalid-argument
error.  The code accepts such an input when verification is disabled: the
configuration of the list-error and task-queue-failure tests (namespace set,
endpoint empty, verification off) runs to successful completion over a benign
source, so no invalid-argument failure occurs. -/
theorem c4_counterexample :
    pNoEndpoint.Namespace = "test-ns" ∧
    pNoEndpoint.TargetClusterEndpoint = "" ∧
    (ForceReplicationWorkflow envOnePageOk pNoEndpoint).outcome = RunOutcome.completed := by
  exact ⟨rfl, rfl, by decide⟩

/-- C4, amended.  An empty namespace fails immediately with an
invalid-argument error and no collaborator operation invoked; an empty
target-cluster endpoint does so only when verification is enabled (with
verification disabled the endpoint is not validated). -/
theorem c4_validation (env : WorkflowEnv) (p : ForceReplicationParams) :
    (p.Namespace = "" →
      (ForceReplicationWorkflow env p).outcome = RunOutcome.failed invalidNamespaceMessage ∧
      (ForceReplicationWorkflow env p).obs = Observations.none) ∧
    (¬p.Namespace = "" → p.EnableVerification = true → p.TargetClusterEndpoint = "" →
      (ForceReplicationWorkflow env p).outcome = RunOutcome.failed invalidEndpointMessage ∧
      (ForceReplicationWorkflow env p).obs = Observations.none) := by
  constructor
  · intro hns
    rw [run_eq_invalid_namespace hns]
    exact ⟨rfl, rfl⟩
  · intro hns hev hec
    rw [run_eq_invalid_endpoint hns ⟨hev, hec⟩]
    exact ⟨rfl, rfl⟩

/-- C4, witness: the two invalid inputs of the test, evaluated. -/
theorem c4_witness :
    (ForceReplicationWorkflow baseEnv baseParams).outcome
      = RunOutcome.failed invalidNamespaceMessage ∧
    (ForceReplicationWorkflow baseEnv baseParams).obs = Observations.none ∧
    (ForceReplicationWorkflow baseEnv pEmptyEndpointVerify).outcome
      = RunOutcome.failed invalidEndpointMessage ∧
    (ForceReplicationWorkflow baseEnv pEmptyEndpointVerify).obs = Observations.none :=
  ⟨((c4_validation baseEnv baseParams).1 rfl).1,
   ((c4_validation baseEnv baseParams).1 rfl).2,
   ((c4_validation baseEnv pEmptyEndpointVerify).2 (by decide) rfl rfl).1,
   ((c4_validation baseEnv pEmptyEndpointVerify).2 (by decide) rfl rfl).2⟩

/-- C7.  A `ListWorkflows` page-fetch error is terminal for the whole
migration: the execution fails carrying exactly the fetch error's message,
the fetch is observed once (no orchestration-level retry), nothing else ran
for that page, and no continuation is emitted. -/
theorem c7_list_error_terminal (env : WorkflowEnv) (p : ForceReplicationParams) (msg : String)
    (hns : ¬p.Namespace = "")
    (hep : ¬(p.EnableVerification = true ∧ p.TargetClusterEndpoint = ""))
    (hbudget : 1 ≤ p.PageCountPerExecution)
    (hfetch : env.listWorkflows p.NextPageToken = Except.error msg) :
    (ForceReplicationWorkflow env p).outcome = RunOutcome.failed msg ∧
    (ForceReplicationWorkflow env p).obs.listCalls = 1 ∧
    (ForceReplicationWorkflow env p).obs.generateCalls = 0 ∧
    (∀ q, (ForceReplicationWorkflow env p).outcome ≠ RunOutcome.continuedAsNew q) := by
  obtain ⟨m, hm⟩ : ∃ m, p.PageCountPerExecution = m + 1 :=
    ⟨p.PageCountPerExecution - 1, by omega⟩
  have hscan : scanPages env p.EnableVerification p.PageCountPerExecution (initialScanState p)
      = ScanOutcome.failedScan
          { initialScanState p with listCalls := (initialScanState p).listCalls + 1 } msg := by
    rw [hm]
    exact scanPages_fetch_error m hfetch
  rw [run_eq_failedScan hns hep hscan]
  exact ⟨rfl, rfl, rfl, fun q => by simp⟩

/-- C7, witness: the list-error test scenario, evaluated. -/
theorem c7_witness :
    (ForceReplicationWorkflow env7 p7).outcome
      = RunOutcome.failed "mock listWorkflows error" ∧
    (ForceReplicationWorkflow env7 p7).obs.listCalls = 1 :=
  ⟨(c7_list_error_terminal env7 p7 "mock listWorkflows error"
      (by decide) (by decide) (by decide) rfl).1,
   (c7_list_error_terminal env7 p7 "mock listWorkflows error"
      (by decide) (by decide) (by decide) rfl).2.1⟩

/-- C9.  With `CountWorkflow` returning 4 and the source yielding 4 non-empty
pages of one execution each (each fully verified), the completed migration
reports `totalWorkflowCount = 4` and `replicatedWorkflowCount = 4`. -/
theorem c9_counting :
    env9.countWorkflowResult = 4 ∧
    (ForceReplicationWorkflow env9 p9).outcome = RunOutcome.completed ∧
    (ForceReplicationWorkflow env9 p9).status.TotalWorkflowCount = 4 ∧
    (ForceReplicationWorkflow env9 p9).status.ReplicatedWorkflowCount = 4 := by
  exact ⟨rfl, by decide, by decide, by decide⟩

/-- C5.  When every `GenerateReplicationTasks` attempt before `N` fails
retryably and attempt `N` fails non-retryably (on the first page, generation
scheduled first), the migration fails immediately with that error's message,
`GenerateReplicationTasks` is observed exactly `N` times, only the one page
was fetched, and verification is never observed. -/
theorem c5_generate_terminal_error (env : WorkflowEnv) (p : ForceReplicationParams)
    (msg : String) (N : Nat)
    (hns : ¬p.Namespace = "")
    (hep : ¬(p.EnableVerification = true ∧ p.TargetClusterEndpoint = ""))
    (hbudget : 1 ≤ p.PageCountPerExecution)
    (hvf : env.verifyFirst 1 = false)
    (hpage : ∃ page, env.listWorkflows p.NextPageToken = Except.ok page)
    (hN1 : 1 ≤ N)
    (hret : ∀ k, 1 ≤ k → k < N →
      ∃ m, env.generateTasks 1 k = Except.error (ActivityErr.retryable m))
    (hterm : env.generateTasks 1 N = Except.error (ActivityErr.nonRetryable msg))
    (hfuel : N ≤ env.retryFuel + 1) :
    (ForceReplicationWorkflow env p).outcome = RunOutcome.failed msg ∧
    (ForceReplicationWorkflow env p).obs.generateCalls = N ∧
    (ForceReplicationWorkflow env p).obs.listCalls = 1 ∧
    (ForceReplicationWorkflow env p).obs.verifyCalls = 0 := by
  obtain ⟨m, hm⟩ : ∃ m, p.PageCountPerExecution = m + 1 :=
    ⟨p.PageCountPerExecution - 1, by omega⟩
  obtain ⟨page, hpage'⟩ := hpage
  have hrl : retryLoop (env.generateTasks 1) 1 env.retryFuel
      = (Except.error (ActivityErr.nonRetryable msg), N) := by
    have := @retryLoop_terminal Unit (env.generateTasks 1) msg env.retryFuel 1 N hN1 (by omega)
      hret hterm
    simpa using this
  have hpipe : runPipeline env 1 p.EnableVerification = (Except.error msg, N, 0) :=
    runPipeline_gen_error p.EnableVerification hvf hrl
  have hscan : scanPages env p.EnableVerification p.PageCountPerExecution (initialScanState p)
      = ScanOutcome.failedScan
          { initialScanState p with
            listCalls := (initialScanState p).listCalls + 1
            lastStartTime :=
              if page.LastStartTime = 0 then (initialScanState p).lastStartTime
              else page.LastStartTime
            lastCloseTime :=
              if page.LastCloseTime = 0 then (initialScanState p).lastCloseTime
              else page.LastCloseTime
            generateCalls := (initialScanState p).generateCalls + N
            verifyCalls := (initialScanState p).verifyCalls + 0 } msg := by
    rw [hm]
    exact scanPages_pipeline_error m hpage' hpipe
  rw [run_eq_failedScan hns hep hscan]
  refine ⟨rfl, ?_, rfl, rfl⟩
  show 0 + N = N
  omega

/-- C5, witness: the generate-error scenario (verification enabled,
generation scheduled first) with two retryable attempts and a non-retryable
third, evaluated. -/
theorem c5_witness :
    (ForceReplicationWorkflow env5 p5).outcome
      = RunOutcome.failed "mock generate replication tasks error" ∧
    (ForceReplicationWorkflow env5 p5).obs.generateCalls = 3 ∧
    (ForceReplicationWorkflow env5 p5).obs.listCalls = 1 ∧
    (ForceReplicationWorkflow env5 p5).obs.verifyCalls = 0 :=
  c5_generate_terminal_error env5 p5 "mock generate replication tasks error" 3
    (by decide) (by decide) (by decide) rfl ⟨_, rfl⟩ (by decide)
    (fun k h1 h2 => by
      interval_cases k <;> exact ⟨"transient generate error", rfl⟩)
    rfl (by decide)

/-- C6.  With verification enabled and the verify operation completing first,
a non-retryable `VerifyReplicationTasks` error fails the migration with that
error's message even though `GenerateReplicationTasks` for the page is never
observed. -/
theorem c6_verify_terminal_error (env : WorkflowEnv) (p : ForceReplicationParams)
    (msg : String)
    (hns : ¬p.Namespace = "")
    (hep : ¬(p.EnableVerification = true ∧ p.TargetClusterEndpoint = ""))
    (hbudget : 1 ≤ p.PageCountPerExecution)
    (hEV : p.EnableVerification = true)
    (hvf : env.verifyFirst 1 = true)
    (hpage : ∃ page, env.listWorkflows p.NextPageToken = Except.ok page)
    (hver : env.verifyTasks 1 1 = Except.error (ActivityErr.nonRetryable msg)) :
    (ForceReplicationWorkflow env p).outcome = RunOutcome.failed msg ∧
    (ForceReplicationWorkflow env p).obs.generateCalls = 0 ∧
    (ForceReplicationWorkflow env p).obs.verifyCalls = 1 ∧
    (ForceReplicationWorkflow env p).obs.listCalls = 1 := by
  obtain ⟨m, hm⟩ : ∃ m, p.PageCountPerExecution = m + 1 :=
    ⟨p.PageCountPerExecution - 1, by omega⟩
  obtain ⟨page, hpage'⟩ := hpage
  have hrl := retryLoop_nonRetryable_first hver env.retryFuel
  have hpipe : runPipeline env 1 p.EnableVerification = (Except.error msg, 0, 1) := by
    rw [hEV]
    exact runPipeline_verify_error hvf hrl
  have hscan : scanPages env p.EnableVerification p.PageCountPerExecution (initialScanState p)
      = ScanOutcome.failedScan
          { initialScanState p with
            listCalls := (initialScanState p).listCalls + 1
            lastStartTime :=
              if page.LastStartTime = 0 then (initialScanState p).lastStartTime
              else page.LastStartTime
            lastCloseTime :=
              if page.LastCloseTime = 0 then (initialScanState p).lastCloseTime
              else page.LastCloseTime
            generateCalls := (initialScanState p).generateCalls + 0
            verifyCalls := (initialScanState p).verifyCalls + 1 } msg := by
    rw [hm]
    exact scanPages_pipeline_error m hpage' hpipe
  rw [run_eq_failedScan hns hep hscan]
  exact ⟨rfl, rfl, rfl, rfl⟩

/-- C6, witness: the verify-error scenario, evaluated. -/
theorem c6_witness :
    (ForceReplicationWorkflow env6 p9).outcome
      = RunOutcome.failed "mock verify replication tasks error" ∧
    (ForceReplicationWorkflow env6 p9).obs.generateCalls = 0 ∧
    (ForceReplicationWorkflow env6 p9).obs.verifyCalls = 1 ∧
    (ForceReplicationWorkflow env6 p9).obs.listCalls = 1 :=
  c6_verify_terminal_error env6 p9 "mock verify replication tasks error"
    (by decide) (by decide) (by decide) rfl rfl ⟨_, rfl⟩ rfl

/-- C10.  The status query's `pageTokenForRestart` always equals the
continuation token the current execution was started with — in every branch
of the workflow, for every environment — hence it is nil exactly for an
execution started without a token, and not the most recently fetched token:
in the continue-as-new scenario the emitted next token is
`fake-page-token-2` while the reported restart token stays
`fake-initial-page-token`. -/
theorem c10_page_token_for_restart :
    (∀ (env : WorkflowEnv) (p : ForceReplicationParams),
      (ForceReplicationWorkflow env p).status.PageTokenForRestart = p.NextPageToken) ∧
    (ForceReplicationWorkflow envCAN pCAN).status.PageTokenForRestart
      = some "fake-initial-page-token" ∧
    (∃ next, (ForceReplicationWorkflow envCAN pCAN).outcome = RunOutcome.continuedAsNew next ∧
      next.NextPageToken = some "fake-page-token-2" ∧
      next.NextPageToken ≠ (ForceReplicationWorkflow envCAN pCAN).status.PageTokenForRestart) ∧
    (ForceReplicationWorkflow env9 p9).status.PageTokenForRestart = none := by
  refine ⟨?_, by decide, ⟨expectedContinueAsNewParams, by decide, by decide, by decide⟩, by decide⟩
  intro env p
  by_cases hns : p.Namespace = ""
  · rw [run_eq_invalid_namespace hns]; rfl
  · by_cases hep : p.EnableVerification = true ∧ p.TargetClusterEndpoint = ""
    · rw [run_eq_invalid_endpoint hns hep]; rfl
    · cases hscan : scanPages env p.EnableVerification p.PageCountPerExecution
          (initialScanState p) with
      | exhausted st =>
        cases hseed : env.seedResult with
        | error m => rw [run_eq_exhausted_failed hns hep hseed hscan]; rfl
        | ok u => cases u; rw [run_eq_exhausted_ok hns hep hseed hscan]; rfl
      | budgetReached st => rw [run_eq_budget hns hep hscan]; rfl
      | failedScan st m => rw [run_eq_failedScan hns hep hscan]; rfl

/-- C10, witness: the restart token equals the inbound token on a concrete
run. -/
theorem c10_witness :
    (ForceReplicationWorkflow envOnePageOk pNoEndpoint).status.PageTokenForRestart
      = pNoEndpoint.NextPageToken :=
  c10_page_token_for_restart.1 envOnePageOk pNoEndpoint

/-- C2.  The user-data sub-migration with pages `[a, b]` then an empty last
page: the first attempt publishes `a` and `b`, the publish of `b` fails, and
the recorded heartbeats end with `{nil token, index 1}`; the retried attempt
seeded with that heartbeat republishes `b` exactly once more (a tolerated
duplicate), never republishes `a`, re-fetches page 1 once on resume and never
again after moving past it, and the scan completes exactly when it fetches a
page with an empty/nil token and an empty entry list (final general
conjunct). -/
theorem c2_seed_resumption :
    seedAttempt1.2 = some "some random error" ∧
    seedAttempt1.1.heartbeats = [⟨none, 0⟩, ⟨none, 1⟩] ∧
    seedAttempt2.2 = none ∧
    seedAttempt2.1.published = ["a", "b", "b"] ∧
    seedAttempt2.1.listTokens = [none, none, some "acdc"] ∧
    (∀ (env : SeedEnv) (fuel : Nat) (tok : PageToken) (idx : Nat) (st st' : SeedSt),
      seedScan env fuel tok idx st = (st', none) →
      ∃ t resp, st'.listTokens.getLast? = some t ∧ env.listEntries t = Except.ok resp ∧
        resp.NextPageToken = none ∧ resp.Entries = []) :=
  ⟨by decide, by decide, by decide, by decide, by decide,
   fun env => seedScan_complete env⟩

/-- C2, witness: the completion condition applied to the successful retried
attempt — its last fetched page is the empty page with the empty token. -/
theorem c2_witness :
    ∃ t resp, seedAttempt2.1.listTokens.getLast? = some t ∧
      seedTestEnv.listEntries t = Except.ok resp ∧
      resp.NextPageToken = none ∧ resp.Entries = [] :=
  c2_seed_resumption.2.2.2.2.2 seedTestEnv 5 none 1
    { seedAttempt1.1 with describeCalls := seedAttempt1.1.describeCalls + 1 }
    seedAttempt2.1 (by decide)

/-- C8.  A non-retryable sub-migration failure is recorded in the queryable
status as `done = true` with the original failure message, and (final
conjunct) an execution that continues as new never reads the sub-migration's
terminal state — replacing it in the environment leaves such an execution
unchanged, so only the final (source-exhausted) execution can escalate it. -/
theorem c8_submigration_failure :
    (ForceReplicationWorkflow env8 p8).outcome = RunOutcome.failed "namespace is required" ∧
    (ForceReplicationWorkflow env8 p8).status.TaskQueueUserDataReplicationStatus
      = ⟨true, "namespace is required"⟩ ∧
    (ForceReplicationWorkflow env8 p8).status.PageTokenForRestart = none ∧
    (∀ (env : WorkflowEnv) (p : ForceReplicationParams) (s : Except String Unit),
      (∃ next, (ForceReplicationWorkflow env p).outcome = RunOutcome.continuedAsNew next) →
      ForceReplicationWorkflow { env with seedResult := s } p
        = ForceReplicationWorkflow env p) :=
  ⟨by decide, by decide, by decide, run_seed_invariant⟩

/-- C8, witness: a continuing execution is unaffected by swapping the
sub-migration outcome for a failure. -/
theorem c8_witness :
    ForceReplicationWorkflow { envCAN with seedResult := Except.error "boom" } pCAN
      = ForceReplicationWorkflow envCAN pCAN :=
  c8_submigration_failure.2.2.2 envCAN pCAN (Except.error "boom")
    ⟨expectedContinueAsNewParams, by decide⟩

/-- C3, counterexample.  The claim says the emitted continuation record
equals the inbound record with only the token updated, the continuation
count incremented and the counters carried forward.  In the continue-as-new
scenario the emitted record also differs from the inbound one in
`GetParentInfoRPS` (defaulted from 0 to 2) and `VerifyIntervalInSeconds`
(defaulted from 0 to 60) — fields that are neither the token, the count, a
counter, nor the rate-estimation multiplier / queue state the claim excepts —
so no update of only those fields can produce the emitted record. -/
theorem c3_counterexample :
    ∃ next, (ForceReplicationWorkflow envCAN pCAN).outcome = RunOutcome.continuedAsNew next ∧
      next.GetParentInfoRPS = 2 ∧ pCAN.GetParentInfoRPS = 0 ∧
      next.VerifyIntervalInSeconds = 60 ∧ pCAN.VerifyIntervalInSeconds = 0 ∧
      (∀ (tok : PageToken) (cnt : Nat) (rep tot : Int) (ls lc est : Nat) (qq : List Nat),
        next ≠ { pCAN with
          NextPageToken := tok, ContinuedAsNewCount := cnt,
          ReplicatedWorkflowCount := rep, TotalForceReplicateWorkflowCount := tot,
          LastStartTime := ls, LastCloseTime := lc,
          EstimationMultiplier := est, QPSQueue := qq }) := by
  refine ⟨expectedContinueAsNewParams, by decide, by decide, by decide, by decide, by decide, ?_⟩
  intro tok cnt rep tot ls lc est qq h
  have hG := congrArg ForceReplicationParams.GetParentInfoRPS h
  simp [expectedContinueAsNewParams, pCAN, baseParams] at hG

/-- C3, amended.  On every continuation the emitted record preserves the
inbound identity and configuration fields, increments `continuedAsNewCount`
by one, carries the updated counters and timestamps exactly as the status
query reports them, applies the defaults for unset `GetParentInfoRPS` and
`VerifyIntervalInSeconds`, and re-derives the execution-local rate-estimation
state (`EstimationMultiplier`, `QPSQueue`) instead of carrying it. -/
theorem c3_continuation_record (env : WorkflowEnv) (p : ForceReplicationParams)
    (next : ForceReplicationParams)
    (hns : ¬p.Namespace = "")
    (hep : ¬(p.EnableVerification = true ∧ p.TargetClusterEndpoint = ""))
    (hout : (ForceReplicationWorkflow env p).outcome = RunOutcome.continuedAsNew next) :
    next.Namespace = p.Namespace ∧
    next.Query = p.Query ∧
    next.ConcurrentActivityCount = p.ConcurrentActivityCount ∧
    next.OverallRps = p.OverallRps ∧
    next.ListWorkflowsPageSize = p.ListWorkflowsPageSize ∧
    next.PageCountPerExecution = p.PageCountPerExecution ∧
    next.EnableVerification = p.EnableVerification ∧
    next.TargetClusterEndpoint = p.TargetClusterEndpoint ∧
    next.TargetClusterName = p.TargetClusterName ∧
    next.TaskQueueUserDataReplicationParams = p.TaskQueueUserDataReplicationParams ∧
    next.TaskQueueUserDataReplicationStatus = p.TaskQueueUserDataReplicationStatus ∧
    next.ContinuedAsNewCount = p.ContinuedAsNewCount + 1 ∧
    next.GetParentInfoRPS
      = (if p.GetParentInfoRPS = 0 then defaultGetParentInfoRPS else p.GetParentInfoRPS) ∧
    next.VerifyIntervalInSeconds
      = (if p.VerifyIntervalInSeconds = 0 then defaultVerifyIntervalInSeconds
         else p.VerifyIntervalInSeconds) ∧
    next.ContinuedAsNewCount = (ForceReplicationWorkflow env p).status.ContinuedAsNewCount ∧
    next.ReplicatedWorkflowCount
      = (ForceReplicationWorkflow env p).status.ReplicatedWorkflowCount ∧
    next.TotalForceReplicateWorkflowCount
      = (ForceReplicationWorkflow env p).status.TotalWorkflowCount ∧
    next.LastStartTime = (ForceReplicationWorkflow env p).status.LastStartTime ∧
    next.LastCloseTime = (ForceReplicationWorkflow env p).status.LastCloseTime ∧
    next.EstimationMultiplier = initialEstimationMultiplier ∧
    next.QPSQueue = [] := by
  cases hscan : scanPages env p.EnableVerification p.PageCountPerExecution
      (initialScanState p) with
  | exhausted st =>
    cases hseed : env.seedResult with
    | error m =>
      rw [run_eq_exhausted_failed hns hep hseed hscan] at hout
      exact absurd hout (by simp)
    | ok u =>
      cases u
      rw [run_eq_exhausted_ok hns hep hseed hscan] at hout
      exact absurd hout (by simp)
  | failedScan st m =>
    rw [run_eq_failedScan hns hep hscan] at hout
    exact absurd hout (by simp)
  | budgetReached st =>
    rw [run_eq_budget hns hep hscan] at hout ⊢
    simp only [RunOutcome.continuedAsNew.injEq] at hout
    subst hout
    exact ⟨rfl, rfl, rfl, rfl, rfl, rfl, rfl, rfl, rfl, rfl, rfl, rfl, rfl, rfl, rfl, rfl,
      rfl, rfl, rfl, rfl, rfl⟩

/-- C3, witness: the continue-as-new scenario, with the emitted record being
the expected one from the test. -/
theorem c3_witness :
    expectedContinueAsNewParams.Namespace = pCAN.Namespace ∧
    expectedContinueAsNewParams.ContinuedAsNewCount = pCAN.ContinuedAsNewCount + 1 :=
  ⟨(c3_continuation_record envCAN pCAN expectedContinueAsNewParams
      (by decide) (by decide) (by decide)).1,
   (c3_continuation_record envCAN pCAN expectedContinueAsNewParams
      (by decide) (by decide) (by decide)).2.2.2.2.2.2.2.2.2.2.2.1⟩

/-- C1, counterexample.  The claim says a source of `P` pages with page
budget `B` yields `⌈P/B⌉` continuations — with 4 pages and budget 4 that
would be 1 — but the test's own scenario completes in a single execution with
`continuedAsNewCount = 0`: the count of continuations is `⌈P/B⌉ - 1`, not
`⌈P/B⌉`. -/
theorem c1_counterexample :
    (runChain env9 1 p9).outcome = RunOutcome.completed ∧
    (runChain env9 1 p9).status.ContinuedAsNewCount = 0 ∧
    ¬((runChain env9 1 p9).status.ContinuedAsNewCount = (4 + 4 - 1) / 4) :=
  ⟨by decide, by decide, by decide⟩

/-- C1, amended.  Over a `P`-page linear source with page budget `B` per
execution (benign pipeline and sub-migration), a fresh migration performs
`(P - 1) / B = ⌈P/B⌉ - 1` continuations before completing, and the final
execution's `pageTokenForRestart` is the token that execution was started
with: it is nil if and only if `P ≤ B` (a single execution covered the whole
source) — not "iff the source was exhausted", which is true of every
completed run. -/
theorem c1_continuation_count (env : WorkflowEnv) (toks : Nat → PageToken) (P B : Nat)
    (h : IsLinearSource env toks P)
    (hg : ∀ j, env.generateTasks j 1 = Except.ok ())
    (hv : ∀ j, ∃ v, env.verifyTasks j 1 = Except.ok v)
    (hseed : env.seedResult = Except.ok ())
    (hP : 1 ≤ P) (hB : 1 ≤ B)
    (p : ForceReplicationParams)
    (hns : ¬p.Namespace = "")
    (hep : ¬(p.EnableVerification = true ∧ p.TargetClusterEndpoint = ""))
    (htok : p.NextPageToken = none)
    (hcanc : p.ContinuedAsNewCount = 0)
    (hbudget : p.PageCountPerExecution = B)
    (fuel : Nat) (hfuel : (P - 1) / B ≤ fuel) :
    (runChain env fuel p).outcome = RunOutcome.completed ∧
    (runChain env fuel p).status.ContinuedAsNewCount = (P - 1) / B ∧
    (P - 1) / B + 1 = (P + B - 1) / B ∧
    ((runChain env fuel p).status.PageTokenForRestart = none ↔ P ≤ B) := by
  have htok0 : p.NextPageToken = toks 0 := by rw [htok, h.1]
  have main := runChain_linear h hg hv hseed hB fuel 0 p hns hep htok0 hbudget
    (by omega) hfuel
  refine ⟨main.1, ?_, ?_, ?_⟩
  · rw [main.2.1, hcanc]
    simp
  · have h1 : P + B - 1 = P - 1 + B := by omega
    rw [h1, Nat.add_div_right _ (by omega : 0 < B)]
  · rw [main.2.2]
    obtain ⟨hfirst, hpos, hfetch⟩ := h
    simp only [Nat.sub_zero, Nat.zero_add]
    by_cases hPB : P ≤ B
    · have hq0 : (P - 1) / B = 0 := Nat.div_eq_of_lt (by omega)
      rw [hq0, Nat.zero_mul, hfirst]
      simp [hPB]
    · have hq1 : 1 ≤ (P - 1) / B := (Nat.one_le_div_iff (by omega)).mpr (by omega)
      have hle : (P - 1) / B * B ≤ P - 1 := Nat.div_mul_le_self _ _
      have h1B : 1 * B ≤ (P - 1) / B * B := Nat.mul_le_mul_right B hq1
      rw [Nat.one_mul] at h1B
      have hpos' : 0 < (P - 1) / B * B := Nat.lt_of_lt_of_le (by omega) h1B
      have hne : toks ((P - 1) / B * B) ≠ none :=
        hpos _ hpos' (Nat.lt_of_le_of_lt hle (by omega))
      simp [hne, hPB]

/-- C1, witness: the 3-page source with budget 2 — one continuation, and a
non-nil final restart token. -/
theorem c1_witness :
    (runChain linEnv 1 linParams).outcome = RunOutcome.completed ∧
    (runChain linEnv 1 linParams).status.ContinuedAsNewCount = 1 ∧
    ¬((runChain linEnv 1 linParams).status.PageTokenForRestart = none) := by
  have h := c1_continuation_count linEnv linToks 3 2 lin_isLinearSource
    (fun j => rfl) (fun j => ⟨1, rfl⟩) rfl (by decide) (by decide)
    linParams (by decide) (by decide) rfl rfl rfl 1 (by decide)
  exact ⟨h.1, h.2.1.trans (by decide), fun hn => absurd (h.2.2.2.mp hn) (by decide)⟩

end Migration
